import Mathlib

/-!
Verification development for the Elevator repository (car.c, internal.c,
call.c, mock_controller.c). The C sources are shallowly embedded: C strings
become Lean `String`s, `uint8_t` 0/1 flags become `Bool`s, fixed-size char
arrays are modelled by truncating writes to the array capacity (strncpy into a
`char[4]` field followed by forced null-termination keeps at most 3
characters), and functions that can fail return `Option`/`Except`.
-/

set_option maxRecDepth 4000

/-- Truncating string write: `strncpy(dst, src, n+1)` followed by
`dst[n] = 0` keeps the first `n` characters of `src`. -/
def str_take (n : Nat) (s : String) : String := String.mk (s.toList.take n)

/-- Character class of C `isspace` in the default locale. -/
def isCSpace (c : Char) : Bool :=
  c == ' ' || c == '\t' || c == '\n' || c == '\x0b' || c == '\x0c' || c == '\r'

/-- Value of a run of decimal digit characters. -/
def digitsVal (cs : List Char) : Int :=
  cs.foldl (fun acc c => acc * 10 + ((c.toNat : Int) - 48)) 0

/-- Model of C `atoi`: skip whitespace, optional sign, then a run of
decimal digits; yields 0 when no digits are present. -/
def atoi (s : String) : Int :=
  let cs := s.toList.dropWhile isCSpace
  match cs with
  | '-' :: rest => -(digitsVal (rest.takeWhile Char.isDigit))
  | '+' :: rest => digitsVal (rest.takeWhile Char.isDigit)
  | _ => digitsVal (cs.takeWhile Char.isDigit)

/-- car.c / internal.c `floor_number_to_label` with `label_size = 4`:
negative numbers print as `B` followed by the magnitude, nonnegative ones in
decimal; `snprintf` into a 4-byte buffer keeps at most 3 characters. -/
def floor_number_to_label (floor_num : Int) : String :=
  if floor_num < 0 then str_take 3 ("B" ++ toString (-floor_num))
  else str_take 3 (toString floor_num)

namespace Car

/-- car.c `floor_label_to_number`: a leading `B` or `b` makes a negated
basement number, anything else is read by `atoi`. -/
def floor_label_to_number (floor_label : String) : Int :=
  match floor_label.toList with
  | c :: rest =>
      if c = 'B' ∨ c = 'b' then -(atoi (String.mk rest))
      else atoi floor_label
  | [] => atoi floor_label

end Car

namespace Internal

/-- internal.c `floor_label_to_number`: rejects empty input and any label
that reads as 0 without literally being the string 0, using the sentinel
-9999 as the error code. -/
def floor_label_to_number (floor_label : String) : Int :=
  if floor_label.toList.length = 0 then -9999
  else
    let floor_num :=
      match floor_label.toList with
      | 'B' :: rest => -(atoi (String.mk rest))
      | _ => atoi floor_label
    if floor_num = 0 ∧ floor_label ≠ "0" then -9999 else floor_num

/-- internal.c `get_next_floor`: parse the current floor, move one in the
given direction, and fail (the C function returns -1) when the parse failed
or the result leaves the absolute band B99..999 or lands on 0. -/
def get_next_floor (current_floor : String) (direction : String) : Option String :=
  let floor_num := floor_label_to_number current_floor
  if floor_num = -9999 then none
  else
    let floor_num :=
      if direction = "up" then floor_num + 1
      else if direction = "down" then floor_num - 1
      else floor_num
    if floor_num < -99 ∨ floor_num > 999 ∨ floor_num = 0 then none
    else some (floor_number_to_label floor_num)

end Internal

/-- The `car_shared_mem` record of car.c / internal.c, minus the pthread
mutex and condition variable (synchronisation is modelled by treating every
critical section as one atomic step). -/
structure CarSharedMem where
  current_floor : String
  destination_floor : String
  status : String
  open_button : Bool
  close_button : Bool
  door_obstruction : Bool
  overload : Bool
  emergency_stop : Bool
  individual_service_mode : Bool
  emergency_mode : Bool
deriving Repr, DecidableEq

/-- car.c `init_shared_memory`, field-initialisation part (lines 148-167):
current and destination floor start at the lowest floor, status Closed, all
flags cleared. -/
def init_shared_memory (lowest_floor : String) : CarSharedMem :=
  { current_floor := str_take 3 lowest_floor
    destination_floor := str_take 3 lowest_floor
    status := "Closed"
    open_button := false
    close_button := false
    door_obstruction := false
    overload := false
    emergency_stop := false
    individual_service_mode := false
    emergency_mode := false }

/-- car.c `init_shared_memory`, name-construction part (lines 60-69): the
shared-memory object is created under the name /car followed by the car
name. -/
def car_shm_name (name : String) : String := "/car" ++ name

/-- internal.c main, lines 55-61: the buffer for the shared-memory name is
allocated with malloc, but the snprintf that would write /car plus the car
name into it is commented out, so the name handed to shm_open is whatever
bytes the allocation happened to contain; it does not depend on the car
name at all. -/
def internal_shm_name (mallocContents : String) (name : String) : String :=
  mallocContents

/-- internal.c `is_doors_closed`. -/
def is_doors_closed (s : CarSharedMem) : Bool := s.status == "Closed"

/-- internal.c `is_elevator_moving`. -/
def is_elevator_moving (s : CarSharedMem) : Bool := s.status == "Between"

/-- internal.c main, up/down branch (lines 96-134): requires individual
service mode, closed doors and a stationary car, then writes the stepped
floor into the 4-byte destination field. On failure the process exits with
a diagnostic and the block is unchanged. -/
def internal_up_down (operation : String) (s : CarSharedMem) :
    Except String CarSharedMem :=
  if s.individual_service_mode = false then
    .error "Operation only allowed in service mode."
  else if is_doors_closed s = false then
    .error "Operation not allowed while doors are open."
  else if is_elevator_moving s = true then
    .error "Operation not allowed while elevator is moving."
  else
    match Internal.get_next_floor s.current_floor operation with
    | none => .error ("Cannot move " ++ operation ++ " from floor " ++ s.current_floor ++ ".")
    | some next_floor => .ok { s with destination_floor := str_take 3 next_floor }

/-- internal.c main, operation dispatch (lines 78-134). An operation that
matches none of the branches falls through and leaves the block unchanged
(main has already validated the operation by then). -/
def internal_apply (operation : String) (s : CarSharedMem) :
    Except String CarSharedMem :=
  if operation = "open" then .ok { s with open_button := true }
  else if operation = "close" then .ok { s with close_button := true }
  else if operation = "stop" then .ok { s with emergency_stop := true }
  else if operation = "service_on" then
    .ok { s with individual_service_mode := true, emergency_mode := false }
  else if operation = "service_off" then
    .ok { s with individual_service_mode := false }
  else if operation = "up" ∨ operation = "down" then internal_up_down operation s
  else .ok s

/-- internal.c `is_valid_operation`. -/
def is_valid_operation (operation : String) : Bool :=
  operation == "open" || operation == "close" || operation == "stop" ||
  operation == "service_on" || operation == "service_off" ||
  operation == "up" || operation == "down"

namespace Car

/-- car.c `is_floor_within_range`: compare against the configured lowest and
highest floors (globals in the C program, passed here as arguments). -/
def is_floor_within_range (lowest_floor highest_floor : String)
    (floor_label : String) : Bool :=
  let floor_num := floor_label_to_number floor_label
  let lowest_floor_num := floor_label_to_number lowest_floor
  let highest_floor_num := floor_label_to_number highest_floor
  decide (floor_num ≥ lowest_floor_num) && decide (floor_num ≤ highest_floor_num)

/-- car.c `move_one_floor`: move `current_floor` one integer step toward
`destination_floor` (no special treatment of floor 0) and set the status
back to Closed. -/
def move_one_floor (s : CarSharedMem) : CarSharedMem :=
  let current_floor_num := floor_label_to_number s.current_floor
  let destination_floor_num := floor_label_to_number s.destination_floor
  let current_floor_num :=
    if current_floor_num < destination_floor_num then current_floor_num + 1
    else if current_floor_num > destination_floor_num then current_floor_num - 1
    else current_floor_num
  { s with
    current_floor := floor_number_to_label current_floor_num
    status := "Closed" }

/-- car.c `handle_door_operations` (lines 429-473): process the two button
flags, then let the door timer run one phase (Opening becomes Open, Closing
becomes Closed). The `door_obstruction` and `overload` fields are not
consulted anywhere in this function. -/
def handle_door_operations (s : CarSharedMem) : CarSharedMem :=
  let s :=
    if s.open_button then
      let s :=
        if s.status = "Closed" ∨ s.status = "Closing" then
          { s with status := "Opening" }
        else s
      { s with open_button := false }
    else s
  let s :=
    if s.close_button then
      let s :=
        if s.status = "Open" then { s with status := "Closing" } else s
      { s with close_button := false }
    else s
  if s.status = "Opening" then { s with status := "Open" }
  else if s.status = "Closing" then { s with status := "Closed" }
  else s

/-- car.c `tcp_communication`, inbound-frame handling (lines 326-336): a
frame whose first six characters are FLOOR and a space has the rest copied
into the 4-byte destination field unconditionally; any other frame is
ignored. No range check is performed here. -/
def handle_floor_msg (recv_buffer : String) (s : CarSharedMem) : CarSharedMem :=
  if recv_buffer.toList.take 6 = ("FLOOR " : String).toList then
    { s with destination_floor := str_take 3 (String.mk (recv_buffer.toList.drop 6)) }
  else s

/-- One iteration of the car.c `normal_operation` while-loop
(lines 476-559): emergency mode only services the door buttons; individual
service mode moves one floor toward an in-range destination (resetting an
out-of-range destination to the current floor) and then services the
doors; otherwise normal motion runs, and on arrival the door handler is
invoked. -/
def normal_tick (lowest_floor highest_floor : String) (s : CarSharedMem) :
    CarSharedMem :=
  if s.emergency_mode then handle_door_operations s
  else if s.individual_service_mode then
    let s1 :=
      if s.status = "Open" ∨ s.status = "Closed" then
        if s.current_floor ≠ s.destination_floor then
          if s.status = "Closed" then
            if is_floor_within_range lowest_floor highest_floor s.destination_floor then
              move_one_floor s
            else
              { s with destination_floor := str_take 3 s.current_floor }
          else s
        else s
      else s
    handle_door_operations s1
  else
    if s.current_floor ≠ s.destination_floor ∧ s.status = "Closed" then
      let s2 := move_one_floor { s with status := "Between" }
      if s2.current_floor = s2.destination_floor then handle_door_operations s2
      else s2
    else handle_door_operations s

/-- car.c `recv_looped` (lines 177-193): pull `sz` bytes off the stream; a
read error or the peer closing the connection before `sz` bytes arrived
makes the whole process call exit(EXIT_FAILURE), modelled as the error
value 1. The stream is the list of bytes still to arrive; its end models
the peer having closed the connection. -/
def recv_looped : List Nat → Nat → Except Nat (List Nat × List Nat)
  | rest, 0 => .ok ([], rest)
  | [], _ + 1 => .error 1
  | b :: rest, n + 1 =>
      match recv_looped rest n with
      | .error e => .error e
      | .ok (bs, rem) => .ok (b :: bs, rem)

/-- Big-endian 32-bit length decoding (`ntohl` of the four prefix bytes). -/
def ntohl (bs : List Nat) : Nat := bs.foldl (fun acc b => acc * 256 + b % 256) 0

/-- car.c `receive_msg` (lines 194-206): read the 4-byte length, then that
many payload bytes. Every failure inside `recv_looped` exits the process
(error 1); this function never returns a null pointer to its caller. -/
def receive_msg (stream : List Nat) : Except Nat (String × List Nat) :=
  match recv_looped stream 4 with
  | .error e => .error e
  | .ok (hdr, rest) =>
      match recv_looped rest (ntohl hdr) with
      | .error e => .error e
      | .ok (payload, rest2) =>
          .ok (String.mk (payload.map Char.ofNat), rest2)

end Car

/-- The operations of the processes that mutate the shared control block:
one internal CLI invocation, one iteration of the car operation loop, or
one inbound controller frame handled by the car network loop. -/
inductive SysOp where
  | internalOp (cmd : String)
  | tick
  | floor (msg : String)
deriving Repr, DecidableEq

/-- Effect of one system operation on the control block. A failing internal
invocation exits without touching the block. -/
def apply_sys (lowest_floor highest_floor : String) (s : CarSharedMem) :
    SysOp → CarSharedMem
  | .internalOp cmd =>
      match internal_apply cmd s with
      | .ok s' => s'
      | .error _ => s
  | .tick => Car.normal_tick lowest_floor highest_floor s
  | .floor msg => Car.handle_floor_msg msg s

/-- The canonical floor numbers B99..B1 and 1..999 as integers. -/
def valid_floor_numbers : List Int :=
  ((List.range 99).map (fun i => -((i : Int) + 1))) ++
  ((List.range 999).map (fun i => (i : Int) + 1))

/-- The canonical floor labels B99..B1 and 1..999. -/
def valid_floor_labels : List String := valid_floor_numbers.map floor_number_to_label

/-- Membership in the canonical label set of the data model. -/
def is_valid_floor_label (s : String) : Bool := decide (s ∈ valid_floor_labels)

/-- Claim C1 (code_bug evidence): internal.c never fills the malloc-ed name
buffer (the snprintf is commented out), so the name internal hands to
shm_open does not depend on the car name at all, whereas the car process
publishes the block as /car followed by the name; at car name A with a
zero-filled fresh allocation the two names differ. -/
theorem internal_shm_name_not_derived_from_car_name :
    (∀ contents n₁ n₂ : String,
        internal_shm_name contents n₁ = internal_shm_name contents n₂) ∧
    internal_shm_name "" "A" ≠ car_shm_name "A" :=
  ⟨fun _ _ _ => rfl, by decide⟩

/-- Claim C2 counterexample: with the car configured for floors 1..10, the
label 42 is outside the configured range, yet the FLOOR 42 frame overwrites
destination_floor (initially 1) with 42 instead of being ignored. -/
theorem floor_frame_ignores_range_cex :
    Car.is_floor_within_range "1" "10" "42" = false ∧
    (Car.handle_floor_msg "FLOOR 42" (init_shared_memory "1")).destination_floor = "42" ∧
    (init_shared_memory "1").destination_floor = "1" := by decide

/-- Claim C2 (amended): a FLOOR frame received while connected always
writes its label into destination_floor under the lock and broadcasts, with
no range check: even a label outside the configured lowest..highest range
is written (the label is truncated to the 3-character field capacity; the
hypothesis bounds it by the capacity so the write is exact). -/
theorem floor_frame_unconditional_write (lo hi label : String) (s : CarSharedMem)
    (hlen : label.toList.length ≤ 3)
    (hout : Car.is_floor_within_range lo hi label = false) :
    (Car.handle_floor_msg ("FLOOR " ++ label) s).destination_floor = label := by
  have hdata : ("FLOOR " ++ label).toList = ("FLOOR " : String).toList ++ label.toList :=
    String.data_append _ _
  have htake : List.take 6 (("FLOOR " : String).toList ++ label.toList)
      = ("FLOOR " : String).toList := List.take_left' rfl
  have hdrop : List.drop 6 (("FLOOR " : String).toList ++ label.toList)
      = label.toList := List.drop_left' rfl
  unfold Car.handle_floor_msg
  rw [hdata, if_pos htake, hdrop]
  show String.mk (label.toList.take 3) = label
  rw [List.take_of_length_le hlen]
  exact rfl


/-- Claim C2 witness: the amended theorem applied to the 1..10 car and the
out-of-range label 42. -/
theorem floor_frame_unconditional_write_witness :
    (Car.handle_floor_msg ("FLOOR " ++ "42") (init_shared_memory "1")).destination_floor = "42" :=
  floor_frame_unconditional_write "1" "10" "42" (init_shared_memory "1") (by decide) (by decide)

/-- Claim C4 counterexample: internal.c get_next_floor does not skip floor
0; one step up from B1 and one step down from 1 both land on 0 and are
rejected as out of range instead of yielding 1 and B1. -/
theorem get_next_floor_no_zero_skip_cex :
    Internal.get_next_floor "B1" "up" = none ∧
    Internal.get_next_floor "1" "down" = none := ⟨rfl, rfl⟩

/-- Claim C4 (amended): the step function bounds its range but does not
skip floor 0: step(B1, up) and step(1, down) are OutOfRange failures just
like step(B99, down) and step(999, up), while steps that stay inside
B99..999 without touching 0 succeed. -/
theorem get_next_floor_bounds :
    Internal.get_next_floor "B1" "up" = none ∧
    Internal.get_next_floor "1" "down" = none ∧
    Internal.get_next_floor "B99" "down" = none ∧
    Internal.get_next_floor "999" "up" = none ∧
    Internal.get_next_floor "B2" "up" = some "B1" ∧
    Internal.get_next_floor "2" "down" = some "1" :=
  ⟨rfl, rfl, rfl, rfl, rfl, rfl⟩

/-- Claim C5 (code_bug evidence): when the peer closes the connection
before a full frame arrived, recv_looped calls exit(EXIT_FAILURE), killing
the whole car process (modelled as error 1); this happens both when the
close precedes the 4-byte header and when it cuts the payload short. The
reconnect branch in tcp_communication is unreachable because receive_msg
never returns to it on failure. -/
theorem receive_msg_peer_close_fatal :
    Car.receive_msg ([] : List Nat) = .error 1 ∧
    Car.receive_msg [0, 0, 0, 5] = .error 1 :=
  ⟨rfl, rfl⟩

/-- Claim C6 counterexample: with the doors Closing and an obstruction
present, one pass of the door handler still ends in Closed, not Opening:
handle_door_operations never reads door_obstruction. -/
theorem closing_with_obstruction_cex :
    (Car.handle_door_operations
        { init_shared_memory "1" with status := "Closing", door_obstruction := true }).status
      = "Closed" ∧
    (Car.handle_door_operations
        { init_shared_memory "1" with status := "Closing", door_obstruction := true }).status
      ≠ "Opening" := by decide

/-- Claim C6 (amended): while status is Closing and the open button is not
pressed, the door handler proceeds to Closed after the delay regardless of
door_obstruction, which it leaves untouched; the obstruction flag never
forces a re-entry into Opening. -/
theorem closing_ignores_obstruction (s : CarSharedMem)
    (hst : s.status = "Closing") (hob : s.open_button = false) :
    (Car.handle_door_operations s).status = "Closed" ∧
    (Car.handle_door_operations s).door_obstruction = s.door_obstruction := by
  obtain ⟨cf, df, st, ob, cb, dobs, ov, es, ism, em⟩ := s
  simp only [CarSharedMem.mk.injEq] at hst hob ⊢
  subst hst; subst hob
  cases cb <;> simp [Car.handle_door_operations]

/-- Claim C6 witness: the amended theorem at a Closing state with the
obstruction flag raised. -/
theorem closing_ignores_obstruction_witness :
    (Car.handle_door_operations
        { init_shared_memory "1" with status := "Closing", door_obstruction := true }).status
      = "Closed" ∧
    (Car.handle_door_operations
        { init_shared_memory "1" with status := "Closing", door_obstruction := true }).door_obstruction
      = ({ init_shared_memory "1" with status := "Closing", door_obstruction := true } : CarSharedMem).door_obstruction :=
  closing_ignores_obstruction _ (by decide) (by decide)

/-- Claim C8: the internal service_on operation sets
individual_service_mode and clears emergency_mode, and service_off clears
individual_service_mode while leaving emergency_mode (and every other
field) unchanged. -/
theorem service_on_off_semantics (s : CarSharedMem) :
    internal_apply "service_on" s
      = .ok { s with individual_service_mode := true, emergency_mode := false } ∧
    internal_apply "service_off" s
      = .ok { s with individual_service_mode := false } :=
  ⟨rfl, rfl⟩

/-- One pass of the door handler with doors Closed and neither button
pressed changes nothing. -/
theorem handle_door_operations_idle (s : CarSharedMem)
    (hst : s.status = "Closed") (hob : s.open_button = false)
    (hcb : s.close_button = false) :
    Car.handle_door_operations s = s := by
  unfold Car.handle_door_operations
  simp [hst, hob, hcb]

/-- The door handler never touches the floors or the mode flags. -/
theorem handle_door_operations_preserves (s : CarSharedMem) :
    (Car.handle_door_operations s).current_floor = s.current_floor ∧
    (Car.handle_door_operations s).destination_floor = s.destination_floor ∧
    (Car.handle_door_operations s).emergency_mode = s.emergency_mode := by
  unfold Car.handle_door_operations
  dsimp only
  split_ifs <;> exact ⟨rfl, rfl, rfl⟩

/-- No internal operation other than service_on changes emergency_mode. -/
theorem internal_apply_emergency_mode (lo hi : String) (c : String)
    (s : CarSharedMem) (hc : c ≠ "service_on") :
    (apply_sys lo hi s (SysOp.internalOp c)).emergency_mode = s.emergency_mode := by
  show (match internal_apply c s with
        | .ok s' => s'
        | .error _ => s).emergency_mode = s.emergency_mode
  by_cases h1 : c = "open"
  · subst h1; rfl
  by_cases h2 : c = "close"
  · subst h2; rfl
  by_cases h3 : c = "stop"
  · subst h3; rfl
  by_cases h5 : c = "service_off"
  · subst h5; rfl
  by_cases h6 : c = "up" ∨ c = "down"
  · have e : internal_apply c s = internal_up_down c s := by
      unfold internal_apply
      rw [if_neg h1, if_neg h2, if_neg h3, if_neg hc, if_neg h5, if_pos h6]
    rw [e]
    unfold internal_up_down
    split_ifs <;> try rfl
    cases hnf : Internal.get_next_floor s.current_floor c <;> rfl
  · have e : internal_apply c s = .ok s := by
      unfold internal_apply
      rw [if_neg h1, if_neg h2, if_neg h3, if_neg hc, if_neg h5, if_neg h6]
    rw [e]

/-- One operation-loop iteration never changes emergency_mode. -/
theorem normal_tick_emergency_mode (lo hi : String) (s : CarSharedMem) :
    (Car.normal_tick lo hi s).emergency_mode = s.emergency_mode := by
  unfold Car.normal_tick
  dsimp only
  split_ifs <;> (try rw [(handle_door_operations_preserves _).2.2]) <;> rfl

/-- The inbound-frame handler never changes emergency_mode. -/
theorem handle_floor_msg_emergency_mode (m : String) (s : CarSharedMem) :
    (Car.handle_floor_msg m s).emergency_mode = s.emergency_mode := by
  unfold Car.handle_floor_msg
  split_ifs <;> rfl

/-- Once emergency_mode is set, any run of system operations that contains
no internal service_on invocation leaves it set. -/
theorem sys_run_keeps_emergency_mode (lo hi : String) (ops : List SysOp) :
    ∀ s : CarSharedMem, s.emergency_mode = true →
      SysOp.internalOp "service_on" ∉ ops →
      (ops.foldl (apply_sys lo hi) s).emergency_mode = true := by
  induction ops with
  | nil => exact fun _ hem _ => hem
  | cons op rest ih =>
      intro s hem hns
      have hop : op ≠ SysOp.internalOp "service_on" := by
        intro h; exact hns (by rw [h]; exact List.mem_cons_self _ _)
      have hrest : SysOp.internalOp "service_on" ∉ rest := by
        intro h; exact hns (List.mem_cons_of_mem _ h)
      have hstep : (apply_sys lo hi s op).emergency_mode = s.emergency_mode := by
        cases op with
        | internalOp c =>
            have hc : c ≠ "service_on" := by
              intro h; exact hop (by rw [h])
            exact internal_apply_emergency_mode lo hi c s hc
        | tick => exact normal_tick_emergency_mode lo hi s
        | floor m => exact handle_floor_msg_emergency_mode m s
      rw [List.foldl_cons]
      exact ih _ (by rw [hstep]; exact hem) hrest

/-- Claim C3 counterexample: applying the internal stop operation to the
freshly initialised control block sets emergency_stop but leaves
emergency_mode clear — nothing in the code turns emergency_stop into
emergency_mode, so stop does not activate emergency_mode. -/
theorem internal_stop_no_emergency_mode_cex :
    (internal_apply "stop" (init_shared_memory "1")).map CarSharedMem.emergency_mode
      = .ok false ∧
    (internal_apply "stop" (init_shared_memory "1")).map CarSharedMem.emergency_stop
      = .ok true :=
  ⟨rfl, rfl⟩

/-- Claim C3 (amended): the internal stop operation only sets
emergency_stop (leaving emergency_mode and every other field unchanged; no
code path reads emergency_stop back), and whenever emergency_mode is set it
remains set in every state reachable by internal operations, operation-loop
iterations and inbound frames, as long as no explicit service_on occurs. -/
theorem emergency_mode_latched_until_service_on (lo hi : String)
    (ops : List SysOp) (s : CarSharedMem) (hem : s.emergency_mode = true)
    (hns : SysOp.internalOp "service_on" ∉ ops) :
    (ops.foldl (apply_sys lo hi) s).emergency_mode = true ∧
    (∀ t : CarSharedMem, internal_apply "stop" t = .ok { t with emergency_stop := true }) :=
  ⟨sys_run_keeps_emergency_mode lo hi ops s hem hns, fun _ => rfl⟩

/-- Claim C3 witness: a stop, a loop iteration and a FLOOR frame keep
emergency_mode set on the 1..10 car. -/
theorem emergency_mode_latched_witness :
    (([SysOp.internalOp "stop", SysOp.tick, SysOp.floor "FLOOR 3"]).foldl
        (apply_sys "1" "10")
        { init_shared_memory "1" with emergency_mode := true }).emergency_mode = true :=
  (emergency_mode_latched_until_service_on "1" "10"
    [SysOp.internalOp "stop", SysOp.tick, SysOp.floor "FLOOR 3"]
    { init_shared_memory "1" with emergency_mode := true } rfl (by decide)).1

/-- Claim C7 counterexample: car at floor 1 with destination 2 and doors
Closed; after the motion step completes it has arrived, yet the status is
Closed, not Opening — the doors do not open automatically on arrival. -/
theorem arrival_no_auto_open_cex :
    (Car.normal_tick "1" "10"
        { init_shared_memory "1" with destination_floor := "2" }).status = "Closed" ∧
    (Car.normal_tick "1" "10"
        { init_shared_memory "1" with destination_floor := "2" }).current_floor = "2" ∧
    (Car.normal_tick "1" "10"
        { init_shared_memory "1" with destination_floor := "2" }).status ≠ "Opening" := by
  decide

/-- Claim C7 (amended): in normal mode, when a motion step completes the
status is set back to Closed whether or not the car arrived; on arrival the
door handler is invoked but, with no button pressed, it leaves the doors
Closed — there is no automatic transition to Opening. -/
theorem motion_step_ends_closed (lo hi : String) (s : CarSharedMem)
    (hem : s.emergency_mode = false) (hism : s.individual_service_mode = false)
    (hst : s.status = "Closed") (hne : s.current_floor ≠ s.destination_floor)
    (hob : s.open_button = false) (hcb : s.close_button = false) :
    (Car.normal_tick lo hi s).status = "Closed" ∧
    (Car.normal_tick lo hi s).current_floor = (Car.move_one_floor s).current_floor ∧
    (Car.normal_tick lo hi s).destination_floor = s.destination_floor := by
  have hem' : ¬ (s.emergency_mode = true) := by rw [hem]; exact Bool.false_ne_true
  have hism' : ¬ (s.individual_service_mode = true) := by
    rw [hism]; exact Bool.false_ne_true
  unfold Car.normal_tick
  rw [if_neg hem', if_neg hism', if_pos (And.intro hne hst)]
  dsimp only
  by_cases harr :
      (Car.move_one_floor { s with status := "Between" }).current_floor
        = (Car.move_one_floor { s with status := "Between" }).destination_floor
  · rw [if_pos harr,
        handle_door_operations_idle (Car.move_one_floor { s with status := "Between" })
          rfl hob hcb]
    exact ⟨rfl, rfl, rfl⟩
  · rw [if_neg harr]
    exact ⟨rfl, rfl, rfl⟩

/-- Claim C7 witness: the amended theorem for a 1..10 car at floor 1 with
destination 3 (not yet arriving after one step). -/
theorem motion_step_ends_closed_witness :
    (Car.normal_tick "1" "10"
        { init_shared_memory "1" with destination_floor := "3" }).status = "Closed" ∧
    (Car.normal_tick "1" "10"
        { init_shared_memory "1" with destination_floor := "3" }).current_floor
      = (Car.move_one_floor { init_shared_memory "1" with destination_floor := "3" }).current_floor ∧
    (Car.normal_tick "1" "10"
        { init_shared_memory "1" with destination_floor := "3" }).destination_floor
      = ({ init_shared_memory "1" with destination_floor := "3" } : CarSharedMem).destination_floor :=
  motion_step_ends_closed "1" "10" { init_shared_memory "1" with destination_floor := "3" }
    rfl rfl rfl (by decide) rfl rfl

/-- Claim C9: for every valid floor label L in B99..B1, 1..999, formatting
the integer obtained by parsing L yields L again, for the parser of car.c
and for the parser of internal.c alike. -/
theorem floor_label_roundtrip (s : String) (h : is_valid_floor_label s = true) :
    floor_number_to_label (Car.floor_label_to_number s) = s ∧
    floor_number_to_label (Internal.floor_label_to_number s) = s := by
  have hmem : s ∈ valid_floor_labels := of_decide_eq_true h
  have hall : valid_floor_labels.all (fun l =>
      decide (floor_number_to_label (Car.floor_label_to_number l) = l ∧
              floor_number_to_label (Internal.floor_label_to_number l) = l)) = true := by
    decide
  exact of_decide_eq_true (List.all_eq_true.mp hall s hmem)

/-- Claim C9 witness: the round trip at the basement label B1. -/
theorem floor_label_roundtrip_witness :
    floor_number_to_label (Car.floor_label_to_number "B1") = "B1" ∧
    floor_number_to_label (Internal.floor_label_to_number "B1") = "B1" :=
  floor_label_roundtrip "B1" (by decide)

/-- Claim C10: the internal up and down operations validate the stepped
destination only against the absolute limits B99..999 (get_next_floor
takes no configuration), so a stepped floor that lies outside the
configured lowest..highest range is still accepted and written into
destination_floor; a later individual-service iteration of the car's
operation loop then resets that out-of-range destination back to the
current floor. -/
theorem internal_step_beyond_configured_range (lo hi nf op : String)
    (s : CarSharedMem)
    (hop : op = "up" ∨ op = "down")
    (hem : s.emergency_mode = false)
    (hism : s.individual_service_mode = true)
    (hst : s.status = "Closed")
    (hob : s.open_button = false) (hcb : s.close_button = false)
    (hnext : Internal.get_next_floor s.current_floor op = some nf)
    (hout : Car.is_floor_within_range lo hi nf = false)
    (hne : nf ≠ s.current_floor)
    (hnf3 : nf.toList.length ≤ 3)
    (hcur3 : s.current_floor.toList.length ≤ 3) :
    internal_apply op s = .ok { s with destination_floor := nf } ∧
    (Car.normal_tick lo hi { s with destination_floor := nf }).destination_floor
      = s.current_floor ∧
    (Car.normal_tick lo hi { s with destination_floor := nf }).current_floor
      = s.current_floor := by
  have htr : ∀ t : String, t.toList.length ≤ 3 → str_take 3 t = t := by
    intro t ht
    unfold str_take
    rw [List.take_of_length_le ht]
    exact rfl
  have hupdown : ∀ o : String, Internal.get_next_floor s.current_floor o = some nf →
      internal_up_down o s = .ok { s with destination_floor := nf } := by
    intro o ho
    unfold internal_up_down
    rw [if_neg (show ¬ (s.individual_service_mode = false) by simp [hism]),
        if_neg (show ¬ (is_doors_closed s = false) by simp [is_doors_closed, hst]),
        if_neg (show ¬ (is_elevator_moving s = true) by simp [is_elevator_moving, hst]),
        ho]
    show Except.ok { s with destination_floor := str_take 3 nf }
        = Except.ok { s with destination_floor := nf }
    rw [htr nf hnf3]
  refine ⟨?_, ?_, ?_⟩
  · rcases hop with h | h
    · subst h
      show internal_up_down "up" s = _
      exact hupdown "up" hnext
    · subst h
      show internal_up_down "down" s = _
      exact hupdown "down" hnext
  all_goals
    have h2 : Car.normal_tick lo hi { s with destination_floor := nf }
        = { s with destination_floor := str_take 3 s.current_floor } := by
      unfold Car.normal_tick
      rw [if_neg (show ¬ (({ s with destination_floor := nf } : CarSharedMem).emergency_mode = true) by
            rw [show ({ s with destination_floor := nf } : CarSharedMem).emergency_mode = s.emergency_mode from rfl, hem]
            exact Bool.false_ne_true),
          if_pos (show ({ s with destination_floor := nf } : CarSharedMem).individual_service_mode = true from hism)]
      dsimp only
      rw [if_pos (Or.inr hst), if_pos (show s.current_floor ≠ nf from Ne.symm hne),
          if_pos hst,
          if_neg (show ¬ (Car.is_floor_within_range lo hi nf = true) by
            rw [hout]; exact Bool.false_ne_true)]
      exact handle_door_operations_idle _ hst hob hcb
  · rw [h2]
    exact htr s.current_floor hcur3
  · rw [h2]

/-- Claim C10 witness, covering both directions. Up: a 1..10 car standing
at floor 10 in service mode; internal up writes destination 11 even though
11 is above the configured highest floor, and the next service-loop
iteration resets the destination to 10. Down: a 5..10 car standing at
floor 5; internal down writes destination 4 even though 4 is below the
configured lowest floor, and the next service-loop iteration resets the
destination to 5. -/
theorem internal_step_beyond_configured_range_witness :
    (internal_apply "up"
        { init_shared_memory "1" with
            current_floor := "10", destination_floor := "10",
            individual_service_mode := true }
      = .ok { { init_shared_memory "1" with
                  current_floor := "10", destination_floor := "10",
                  individual_service_mode := true } with destination_floor := "11" } ∧
    (Car.normal_tick "1" "10"
        { { init_shared_memory "1" with
              current_floor := "10", destination_floor := "10",
              individual_service_mode := true } with destination_floor := "11" }).destination_floor
      = "10" ∧
    (Car.normal_tick "1" "10"
        { { init_shared_memory "1" with
              current_floor := "10", destination_floor := "10",
              individual_service_mode := true } with destination_floor := "11" }).current_floor
      = "10") ∧
    (internal_apply "down"
        { init_shared_memory "5" with individual_service_mode := true }
      = .ok { { init_shared_memory "5" with
                  individual_service_mode := true } with destination_floor := "4" } ∧
    (Car.normal_tick "5" "10"
        { { init_shared_memory "5" with
              individual_service_mode := true } with destination_floor := "4" }).destination_floor
      = "5" ∧
    (Car.normal_tick "5" "10"
        { { init_shared_memory "5" with
              individual_service_mode := true } with destination_floor := "4" }).current_floor
      = "5") :=
  ⟨internal_step_beyond_configured_range "1" "10" "11" "up"
    { init_shared_memory "1" with
        current_floor := "10", destination_floor := "10",
        individual_service_mode := true }
    (Or.inl rfl) rfl rfl rfl rfl rfl (by decide) (by decide) (by decide) (by decide) (by decide),
   internal_step_beyond_configured_range "5" "10" "4" "down"
    { init_shared_memory "5" with individual_service_mode := true }
    (Or.inr rfl) rfl rfl rfl rfl rfl (by decide) (by decide) (by decide) (by decide) (by decide)⟩
